import Mathlib

/-!
Verification model of the Remove.cl server (`src/server.js`).

The two Express handlers (`POST /api/process`, `GET /api/download`) are
embedded as pure Lean functions.  Outbound `fetch` calls are oracles passed
in as `FetchOutcome` values; `Date.now()` samples are passed as explicit
time parameters in source order; `new Date().toISOString()` is the
parameter `nowISO`.  JavaScript string truthiness (`!s` is true for
`undefined`/`null`/`""`) is modelled on `Option String`.
-/

namespace RemoveCl

/-- JS string truthiness for a possibly-absent value: `undefined`, `null`
and `""` are falsy. -/
def truthyOpt : Option String → Bool
  | none => false
  | some s => ! (s == "")

/-- JS string truthiness for a present string value. -/
def truthyS (s : String) : Bool := ! (s == "")

/-- JS `a || b` for a possibly-absent string `a` with default `b`. -/
def jsOrElse (o : Option String) (d : String) : String :=
  match o with
  | none => d
  | some s => if s == "" then d else s

/-- node-fetch `response.ok`: status in [200, 300). -/
def fetchOk (status : Nat) : Bool := decide (200 ≤ status ∧ status < 300)

/-- Does `pat` occur as a contiguous run inside the haystack?  Models JS
`String.prototype.includes` at the character-list level. -/
def containsSub (pat : List Char) : List Char → Bool
  | [] => pat.isEmpty
  | c :: t => pat.isPrefixOf (c :: t) || containsSub pat t

/-- JS `s.includes(pat)`. -/
def strIncludes (s pat : String) : Bool := containsSub pat.data s.data

/-- JS `s.startsWith(p)`. -/
def strStarts (s p : String) : Bool := p.data.isPrefixOf s.data

/-- Whitespace characters removed by JS `String.prototype.trim` (the ASCII
ones; the upstream hosting service only ever returns ASCII bodies). -/
def isJsWs (c : Char) : Bool :=
  c == ' ' || c == '\t' || c == '\n' || c == '\r' || c == Char.ofNat 11 || c == Char.ofNat 12

/-- JS `s.trim()`: strip leading and trailing whitespace. -/
def jsTrim (s : String) : String :=
  ⟨((s.data.dropWhile isJsWs).reverse.dropWhile isJsWs).reverse⟩

/-- Decimal rendering of a `Nat`, as a JS template literal `${n}` renders an
integer.  Fuel-driven so it is structurally recursive. -/
def natToDecAux : Nat → Nat → List Char → List Char
  | 0, _, acc => acc
  | fuel + 1, n, acc =>
    if n = 0 then acc
    else natToDecAux fuel (n / 10) (Char.ofNat (48 + n % 10) :: acc)

/-- Decimal rendering of a `Nat` (`${n}` in a JS template literal). -/
def natToDec (n : Nat) : String :=
  if n = 0 then "0" else ⟨natToDecAux (n + 1) n []⟩

/-- Value of one base64-alphabet character (standard and URL-safe), `none`
for every other character.  Node's lenient decoder skips the latter. -/
def b64Val (c : Char) : Option Nat :=
  if 'A' ≤ c ∧ c ≤ 'Z' then some (c.toNat - 65)
  else if 'a' ≤ c ∧ c ≤ 'z' then some (c.toNat - 97 + 26)
  else if '0' ≤ c ∧ c ≤ '9' then some (c.toNat - 48 + 52)
  else if c = '+' ∨ c = '-' then some 62
  else if c = '/' ∨ c = '_' then some 63
  else none

/-- Reassemble 6-bit groups into bytes; a trailing group of fewer than two
sextets contributes nothing, as in Node's base64 decoder. -/
def b64Bytes : List Nat → List Nat
  | a :: b :: c :: d :: rest =>
      (a * 4 + b / 16) :: ((b % 16) * 16 + c / 4) :: ((c % 4) * 64 + d) :: b64Bytes rest
  | [a, b, c] => [a * 4 + b / 16, (b % 16) * 16 + c / 4]
  | [a, b] => [a * 4 + b / 16]
  | _ => []

/-- Node `Buffer.from(s, 'base64')`: total on every string; characters
outside the base64 alphabets are ignored, so the result can be empty. -/
def base64Decode (s : String) : List Nat := b64Bytes (s.data.filterMap b64Val)

/-- Body of a `POST /api/process` request (`req.body`). -/
structure ProcessReq where
  image : Option String
  filename : Option String
  mimetype : Option String
deriving DecidableEq

/-- Outcome of one outbound `fetch`: a network-level rejection carrying the
thrown error message, or an HTTP response with a status and a body. -/
inductive FetchOutcome (β : Type) where
  | netError (msg : String)
  | response (status : Nat) (body : β)
deriving DecidableEq

/-- Parsed JSON body of the transform API response. -/
structure TransformJson where
  success : Bool
  message : Option String
  result : Option String
  timestamp : Option String
  responseTime : Option String
deriving DecidableEq

/-- Transform API response: content-type header and body.  `json = none`
models a body `response.json()` fails to parse. -/
structure TransformResp where
  contentType : Option String
  json : Option TransformJson
deriving DecidableEq

/-- Success payload of `/api/process` (`res.json({...})` at the end of the
try block). -/
structure OkBody where
  result : String
  uploadedUrl : String
  timestamp : String
  timingUpload : String
  timingProcessing : String
  timingTotal : String
deriving DecidableEq

/-- Response body of `/api/process`: success payload, or an error payload
(the early 400 return carries no timestamp; catch-block errors do). -/
inductive PBody where
  | ok (r : OkBody)
  | err (message : String) (timestamp : Option String)
deriving DecidableEq

/-- Full observable outcome of one `/api/process` request: HTTP status,
JSON body, and which outbound calls were made (with the buffer passed to
the upload). -/
structure POut where
  status : Nat
  body : PBody
  uploadCalled : Bool
  transformCalled : Bool
  uploadPayload : Option (List Nat)
deriving DecidableEq

/-- The catch block's message-substring to status-code mapping
(`server.js` lines 144-155). -/
def mapErrorStatus (msg : String) : Nat :=
  if strIncludes msg "Invalid" || strIncludes msg "unsupported" then 400
  else if strIncludes msg "not found" || strIncludes msg "expired" then 404
  else if strIncludes msg "Too many" then 429
  else if strIncludes msg "reach" || strIncludes msg "unreachable" then 503
  else 500

/-- Response produced by the catch block for a thrown error with message
`msg` (`server.js` lines 140-162). -/
def catchOut (up tr : Bool) (payload : Option (List Nat)) (msg nowISO : String) : POut :=
  { status := mapErrorStatus msg,
    body := .err (if msg == "" then "Failed to process image" else msg) (some nowISO),
    uploadCalled := up, transformCalled := tr, uploadPayload := payload }

/-- The `POST /api/process` handler (`server.js` lines 25-163).  Time
samples in source order: `t0` = `startTime`, `t1` = the `Date.now()` in
`uploadTime`, `t2` = `processStartTime`, `t3` = the `Date.now()` in
`processTime`, `t4` = the `Date.now()` in `totalTime`. -/
def processHandler (req : ProcessReq) (upload : FetchOutcome String)
    (transform : FetchOutcome TransformResp) (t0 t1 t2 t3 t4 : Int)
    (nowISO : String) : POut :=
  if truthyOpt req.image then
    let buffer := base64Decode (req.image.getD "")
    match upload with
    | .netError msg => catchOut true false (some buffer) msg nowISO
    | .response ustatus utext =>
      if ! fetchOk ustatus then
        catchOut true false (some buffer) "Failed to upload image to hosting" nowISO
      else
        let imageUrl := utext
        let uploadTime := t1 - t0
        if ! truthyS imageUrl || ! strStarts imageUrl "https://" then
          catchOut true false (some buffer) "Invalid URL from image hosting" nowISO
        else
          match transform with
          | .netError msg => catchOut true true (some buffer) msg nowISO
          | .response astatus abody =>
            let processTime := t3 - t2
            if ! fetchOk astatus then
              catchOut true true (some buffer)
                (if astatus == 400 then "Invalid image format or unsupported image type"
                 else if astatus == 404 then "Image not found. The uploaded URL may have expired"
                 else if astatus == 429 then "Too many requests. Please wait a moment and try again"
                 else if 500 ≤ astatus then "API server error. Please try again in a few minutes"
                 else "API error (status " ++ natToDec astatus ++ ")") nowISO
            else if ! truthyOpt abody.contentType
                || ! strIncludes (abody.contentType.getD "") "application/json" then
              catchOut true true (some buffer) "API returned invalid response format" nowISO
            else
              match abody.json with
              | none => catchOut true true (some buffer) "invalid json response body" nowISO
              | some data =>
                if ! data.success then
                  catchOut true true (some buffer)
                    (jsOrElse data.message "API processing failed") nowISO
                else if ! truthyOpt data.result
                    || ! strStarts (data.result.getD "") "http" then
                  catchOut true true (some buffer) "Invalid result from API" nowISO
                else
                  { status := 200,
                    body := .ok
                      { result := data.result.getD "",
                        uploadedUrl := jsTrim imageUrl,
                        timestamp := jsOrElse data.timestamp nowISO,
                        timingUpload := toString uploadTime ++ "ms",
                        timingProcessing :=
                          jsOrElse data.responseTime (toString processTime ++ "ms"),
                        timingTotal := toString (t4 - t0) ++ "ms" },
                    uploadCalled := true, transformCalled := true,
                    uploadPayload := some buffer }
  else
    { status := 400, body := .err "No image data provided" none,
      uploadCalled := false, transformCalled := false, uploadPayload := none }

/-- Body of the remote response fetched by the download relay. -/
structure DlResp where
  contentType : Option String
  bytes : List Nat
deriving DecidableEq

/-- Response body of `/api/download`: a file with its download headers, or
a JSON error payload. -/
inductive DBody where
  | file (contentType : String) (contentDisposition : String) (contentLength : Nat)
      (cacheControl : String) (bytes : List Nat)
  | jsonError (message : String)
deriving DecidableEq

/-- Full observable outcome of one `/api/download` request. -/
structure DOut where
  status : Nat
  body : DBody
  fetchCalled : Bool
deriving DecidableEq

/-- File-extension derivation from the content-type
(`server.js` lines 196-203). -/
def extFor (contentType : String) : String :=
  if strIncludes contentType "jpeg" || strIncludes contentType "jpg" then "jpg"
  else if strIncludes contentType "webp" then "webp"
  else if strIncludes contentType "gif" then "gif"
  else "png"

/-- The `GET /api/download` handler (`server.js` lines 166-225).  `now` is
the `Date.now()` used in the synthesized filename. -/
def downloadHandler (url fname : Option String) (fetchOut : FetchOutcome DlResp)
    (now : Nat) : DOut :=
  if truthyOpt url then
    match fetchOut with
    | .netError msg =>
        { status := 500,
          body := .jsonError (if msg == "" then "Failed to download image" else msg),
          fetchCalled := true }
    | .response s b =>
      if ! fetchOk s then
        { status := 500, body := .jsonError ("Failed to fetch image: " ++ natToDec s),
          fetchCalled := true }
      else
        let contentType := jsOrElse b.contentType "image/png"
        let extension := extFor contentType
        let filename := jsOrElse fname ("result_" ++ natToDec now ++ "." ++ extension)
        { status := 200,
          body := .file contentType ("attachment; filename=\"" ++ filename ++ "\"")
            b.bytes.length "no-cache" b.bytes,
          fetchCalled := true }
  else
    { status := 400, body := .jsonError "Image URL is required", fetchCalled := false }

/-! ### Supporting lemmas -/

/-- A substring occurrence forces every character of the pattern to occur
in the haystack. -/
theorem containsSub_subset : ∀ (hay pat : List Char),
    containsSub pat hay = true → ∀ c ∈ pat, c ∈ hay := by
  intro hay
  induction hay with
  | nil =>
    intro pat h c hc
    unfold containsSub at h
    rw [ List.isEmpty_iff] at h
    subst h
    cases hc
  | cons a t ih =>
    intro pat h c hc
    unfold containsSub at h
    rcases Bool.or_eq_true _ _ |>.mp h with h1 | h2
    · have hp : pat <+: a :: t := List.isPrefixOf_iff_prefix.mp h1
      exact hp.subset hc
    · exact List.mem_cons_of_mem _ (ih pat h2 c hc)

/-- To refute a substring occurrence it is enough to exhibit one character
of the pattern that does not occur in the haystack. -/
theorem containsSub_eq_false (pat hay : List Char) (c : Char)
    (hc : c ∈ pat) (hn : c ∉ hay) : containsSub pat hay = false := by
  cases h : containsSub pat hay
  · rfl
  · exact absurd (containsSub_subset hay pat h c hc) hn

/-- Characters produced by the decimal-rendering worker are digits. -/
theorem natToDecAux_digits : ∀ (fuel n : Nat) (acc : List Char),
    (∀ c ∈ acc, c.isDigit = true) → ∀ c ∈ natToDecAux fuel n acc, c.isDigit = true := by
  intro fuel
  induction fuel with
  | zero =>
    intro n acc hacc c hc
    exact hacc c hc
  | succ f ih =>
    intro n acc hacc c hc
    unfold natToDecAux at hc
    split at hc
    · exact hacc c hc
    · refine ih _ _ ?_ c hc
      intro d hd
      rcases List.mem_cons.mp hd with hd | hd
      · subst hd
        have h10 : n % 10 < 10 := Nat.mod_lt _ (by omega)
        have hall : ∀ r < 10, (Char.ofNat (48 + r)).isDigit = true := by decide
        exact hall _ h10
      · exact hacc d hd

/-- Every character of the decimal rendering of a `Nat` is a digit. -/
theorem natToDec_digits (n : Nat) : ∀ c ∈ (natToDec n).data, c.isDigit = true := by
  unfold natToDec
  split
  · intro c hc
    have : c = '0' := by simpa using hc
    subst this
    decide
  · intro c hc
    exact natToDecAux_digits _ _ _ (by intro d hd; cases hd) c hc

/-- The fallback message `API error (status N)` matches none of the
catch block's substring patterns, so it is mapped to 500, whatever the
status digits are. -/
theorem mapErrorStatus_apiError (s : Nat) :
    mapErrorStatus ("API error (status " ++ natToDec s ++ ")") = 500 := by
  have hd := natToDec_digits s
  have hay : ("API error (status " ++ natToDec s ++ ")").data
      = ("API error (status ").data ++ (natToDec s).data ++ (")").data := by
    simp [String.data_append]
  have hmem : ∀ (c : Char), c.isDigit = false → c ∉ ("API error (status ").data →
      c ∉ (")").data → c ∉ ("API error (status " ++ natToDec s ++ ")").data := by
    intro c hdig h1 h2 hm
    rw [hay] at hm
    rcases List.mem_append.mp hm with hm | hm
    · rcases List.mem_append.mp hm with hm | hm
      · exact h1 hm
      · rw [hd c hm] at hdig
        cases hdig
    · exact h2 hm
  unfold mapErrorStatus strIncludes
  rw [containsSub_eq_false _ _ 'v' (by decide) (hmem 'v' (by decide) (by decide) (by decide)),
    containsSub_eq_false _ _ 'd' (by decide) (hmem 'd' (by decide) (by decide) (by decide)),
    containsSub_eq_false _ _ 'f' (by decide) (hmem 'f' (by decide) (by decide) (by decide)),
    containsSub_eq_false _ _ 'x' (by decide) (hmem 'x' (by decide) (by decide) (by decide)),
    containsSub_eq_false _ _ 'T' (by decide) (hmem 'T' (by decide) (by decide) (by decide)),
    containsSub_eq_false _ _ 'c' (by decide) (hmem 'c' (by decide) (by decide) (by decide)),
    containsSub_eq_false _ _ 'c' (by decide) (hmem 'c' (by decide) (by decide) (by decide))]
  simp

/-- The catch block never produces a 200: every branch of the substring
mapping is a non-2xx literal. -/
theorem mapErrorStatus_ne_200 (m : String) : mapErrorStatus m ≠ 200 := by
  unfold mapErrorStatus
  repeat' split
  all_goals decide

/-- Dropping trailing whitespace from `p ++ t` keeps `p` as a head run when
`p` contains no whitespace. -/
theorem nonWs_isPrefixOf_rtrim (p t : List Char) (hp : ∀ c ∈ p, isJsWs c = false) :
    p <+: ((p ++ t).reverse.dropWhile isJsWs).reverse := by
  rw [ List.reverse_append]
  rw [ List.dropWhile_append]
  split
  · cases hpr : p.reverse with
    | nil =>
      have hnil : p = [] := by
        rw [← List.reverse_reverse p, hpr]
        rfl
      subst hnil
      simp
    | cons c l =>
      have hcp : c ∈ p := by
        have : c ∈ p.reverse := by
          rw [hpr]
          exact List.mem_cons_self _ _
        exact List.mem_reverse.mp this
      rw [ List.dropWhile_cons_of_neg (by simp [hp c hcp])]
      rw [← hpr, List.reverse_reverse]
  · rw [ List.reverse_append, List.reverse_reverse]
    exact List.prefix_append _ _

/-- A string starting with `https://` still starts with `http` after JS
`trim()`. -/
theorem strStarts_jsTrim_http (u : String) (h : strStarts u "https://" = true) :
    strStarts (jsTrim u) "http" = true := by
  unfold strStarts at h ⊢
  rw [ List.isPrefixOf_iff_prefix] at h ⊢
  obtain ⟨rest, hrest⟩ := h
  show ("http").data <+: ((u.data.dropWhile isJsWs).reverse.dropWhile isJsWs).reverse
  have hdata : u.data = ("http").data ++ (['s', ':', '/', '/'] ++ rest) := by
    rw [← hrest]
    rfl
  have hws : (("http").data ++ (['s', ':', '/', '/'] ++ rest)).dropWhile isJsWs
      = ("http").data ++ (['s', ':', '/', '/'] ++ rest) := by
    show ('h' :: ('t' :: 't' :: 'p' :: 's' :: ':' :: '/' :: '/' :: rest)).dropWhile isJsWs = _
    rw [ List.dropWhile_cons_of_neg (by decide)]
    rfl
  rw [hdata, hws]
  exact nonWs_isPrefixOf_rtrim _ _ (by decide)

/-- `containsSub` decides exactly the contiguous-substring (infix)
relation. -/
theorem containsSub_correct : ∀ (hay pat : List Char),
    containsSub pat hay = true ↔ pat <:+: hay := by
  intro hay
  induction hay with
  | nil =>
    intro pat
    unfold containsSub
    rw [ List.isEmpty_iff, List.infix_nil]
  | cons a t ih =>
    intro pat
    unfold containsSub
    rw [ Bool.or_eq_true, List.infix_cons_iff]
    constructor
    · rintro (h | h)
      · exact Or.inl (List.isPrefixOf_iff_prefix.mp h)
      · exact Or.inr ((ih pat).mp h)
    · rintro (h | h)
      · exact Or.inl (List.isPrefixOf_iff_prefix.mpr h)
      · exact Or.inr ((ih pat).mpr h)

/-- A string containing `unreachable` also contains `reach`. -/
theorem strIncludes_unreachable_reach (msg : String)
    (h : strIncludes msg "unreachable" = true) : strIncludes msg "reach" = true := by
  unfold strIncludes at h ⊢
  rw [containsSub_correct] at h ⊢
  exact List.IsInfix.trans ⟨['u', 'n'], ['a', 'b', 'l', 'e'], rfl⟩ h

/-- Exact characterization of the catch block's 503 branch: the status is
503 precisely when the message contains `reach` (the `unreachable`
alternative adds nothing) and matches none of the earlier substring
rules. -/
theorem mapErrorStatus_eq_503_iff (msg : String) :
    mapErrorStatus msg = 503 ↔
      (strIncludes msg "Invalid" = false ∧ strIncludes msg "unsupported" = false ∧
       strIncludes msg "not found" = false ∧ strIncludes msg "expired" = false ∧
       strIncludes msg "Too many" = false ∧ strIncludes msg "reach" = true) := by
  unfold mapErrorStatus
  by_cases h1 : (strIncludes msg "Invalid" || strIncludes msg "unsupported") = true
  · rw [if_pos h1]
    constructor
    · intro h
      exact absurd h (by decide)
    · rintro ⟨hI, hU, -⟩
      rw [hI, hU] at h1
      exact absurd h1 (by decide)
  · have h1f : (strIncludes msg "Invalid" || strIncludes msg "unsupported") = false := by
      revert h1
      cases (strIncludes msg "Invalid" || strIncludes msg "unsupported") <;> simp
    obtain ⟨hI, hU⟩ := Bool.or_eq_false_iff.mp h1f
    rw [if_neg h1]
    by_cases h2 : (strIncludes msg "not found" || strIncludes msg "expired") = true
    · rw [if_pos h2]
      constructor
      · intro h
        exact absurd h (by decide)
      · rintro ⟨-, -, hN, hE, -⟩
        rw [hN, hE] at h2
        exact absurd h2 (by decide)
    · have h2f : (strIncludes msg "not found" || strIncludes msg "expired") = false := by
        revert h2
        cases (strIncludes msg "not found" || strIncludes msg "expired") <;> simp
      obtain ⟨hN, hE⟩ := Bool.or_eq_false_iff.mp h2f
      rw [if_neg h2]
      by_cases h3 : strIncludes msg "Too many" = true
      · rw [if_pos h3]
        constructor
        · intro h
          exact absurd h (by decide)
        · rintro ⟨-, -, -, -, hT, -⟩
          rw [hT] at h3
          exact absurd h3 (by decide)
      · have h3f : strIncludes msg "Too many" = false := by
          revert h3
          cases strIncludes msg "Too many" <;> simp
        rw [if_neg h3]
        by_cases h4 : (strIncludes msg "reach" || strIncludes msg "unreachable") = true
        · rw [if_pos h4]
          constructor
          · intro _
            refine ⟨hI, hU, hN, hE, h3f, ?_⟩
            rcases Bool.or_eq_true _ _ |>.mp h4 with hR | hUn
            · exact hR
            · exact strIncludes_unreachable_reach msg hUn
          · intro _
            rfl
        · rw [if_neg h4]
          constructor
          · intro h
            exact absurd h (by decide)
          · rintro ⟨-, -, -, -, -, hR⟩
            rw [hR] at h4
            exact absurd (by simp) h4

/-! ### Claim theorems -/

/-- C5: a `POST /api/process` request whose image field is absent or empty
always yields HTTP 400 with the MissingInput error body (success=false and
a human-readable message, no timestamp field on this early return), and the
upstream hosting client is never invoked. -/
theorem c5_missing_image_rejected (req : ProcessReq) (upload : FetchOutcome String)
    (transform : FetchOutcome TransformResp) (t0 t1 t2 t3 t4 : Int) (nowISO : String)
    (h : truthyOpt req.image = false) :
    (processHandler req upload transform t0 t1 t2 t3 t4 nowISO).status = 400 ∧
    (processHandler req upload transform t0 t1 t2 t3 t4 nowISO).body
      = .err "No image data provided" none ∧
    (processHandler req upload transform t0 t1 t2 t3 t4 nowISO).uploadCalled = false := by
  unfold processHandler
  simp [h]

/-- Witness for C5 at the concrete request with no image field. -/
theorem c5_missing_image_rejected_witness :
    truthyOpt (ProcessReq.mk none none none).image = false ∧
    ((processHandler ⟨none, none, none⟩ (.netError "x") (.netError "x") 0 0 0 0 0 "TS").status = 400 ∧
     (processHandler ⟨none, none, none⟩ (.netError "x") (.netError "x") 0 0 0 0 0 "TS").body
       = .err "No image data provided" none ∧
     (processHandler ⟨none, none, none⟩ (.netError "x") (.netError "x") 0 0 0 0 0 "TS").uploadCalled = false) :=
  ⟨by decide,
   c5_missing_image_rejected ⟨none, none, none⟩ (.netError "x") (.netError "x") 0 0 0 0 0 "TS" (by decide)⟩

/-- C9: a `GET /api/download` request with a missing `url` query parameter
yields HTTP 400 with the MissingUrl error body, and no outbound fetch
occurs. -/
theorem c9_missing_url_rejected (fname : Option String) (fetchOut : FetchOutcome DlResp)
    (now : Nat) :
    downloadHandler none fname fetchOut now
      = ⟨400, .jsonError "Image URL is required", false⟩ := by
  rfl

/-- C10: for every non-empty image string, wire decoding never fails: the
request is never rejected at the decode step, the hosting upload is always
attempted, and the buffer passed to it is the (total, lenient) base64
decoding of the field. -/
theorem c10_decode_never_rejects (req : ProcessReq) (s : String)
    (upload : FetchOutcome String) (transform : FetchOutcome TransformResp)
    (t0 t1 t2 t3 t4 : Int) (nowISO : String)
    (himg : req.image = some s) (hs : s ≠ "") :
    (processHandler req upload transform t0 t1 t2 t3 t4 nowISO).uploadCalled = true ∧
    (processHandler req upload transform t0 t1 t2 t3 t4 nowISO).uploadPayload
      = some (base64Decode s) := by
  have hbeq : (s == "") = false := beq_eq_false_iff_ne.mpr hs
  unfold processHandler
  rw [himg]
  simp only [truthyOpt, hbeq, Bool.not_false, Option.getD_some, if_true]
  constructor <;> (repeat' split) <;> simp [catchOut]

/-- Witness for C10: garbage (non-base64) input decodes to the empty buffer
and the upload is still attempted. -/
theorem c10_decode_never_rejects_witness :
    ("!!!" : String) ≠ "" ∧ base64Decode "!!!" = [] ∧
    ((processHandler ⟨some "!!!", none, none⟩ (.netError "x") (.netError "x") 0 0 0 0 0 "TS").uploadCalled = true ∧
     (processHandler ⟨some "!!!", none, none⟩ (.netError "x") (.netError "x") 0 0 0 0 0 "TS").uploadPayload
       = some (base64Decode "!!!")) :=
  ⟨by decide, by decide,
   c10_decode_never_rejects ⟨some "!!!", none, none⟩ "!!!" (.netError "x") (.netError "x")
     0 0 0 0 0 "TS" rfl (by decide)⟩

/-- C3: if the hosting upload step fails (network failure, non-2xx upload
response, or an invalid returned URL), the transform call is never invoked
and the single response is a ProcessError. -/
theorem c3_upload_failure_short_circuits (req : ProcessReq) (upload : FetchOutcome String)
    (transform : FetchOutcome TransformResp) (t0 t1 t2 t3 t4 : Int) (nowISO : String)
    (himg : truthyOpt req.image = true)
    (hfail : (∃ m, upload = .netError m) ∨
      ∃ us ut, upload = .response us ut ∧
        (fetchOk us = false ∨ truthyS ut = false ∨ strStarts ut "https://" = false)) :
    (processHandler req upload transform t0 t1 t2 t3 t4 nowISO).transformCalled = false ∧
    (processHandler req upload transform t0 t1 t2 t3 t4 nowISO).status ≠ 200 ∧
    ∃ m, (processHandler req upload transform t0 t1 t2 t3 t4 nowISO).body
      = .err m (some nowISO) := by
  unfold processHandler
  rw [if_pos himg]
  rcases hfail with ⟨m, rfl⟩ | ⟨us, ut, rfl, hcase⟩
  · exact ⟨rfl, mapErrorStatus_ne_200 m, _, rfl⟩
  · by_cases hok : fetchOk us = false
    · simp only [hok, Bool.not_false, if_true]
      exact ⟨rfl, mapErrorStatus_ne_200 "Failed to upload image to hosting", _, rfl⟩
    · have hok2 : fetchOk us = true := by
        revert hok
        cases fetchOk us <;> simp
      rcases hcase with h | h | h
      · rw [h] at hok2
        cases hok2
      · simp only [hok2, Bool.not_true, h, Bool.not_false, Bool.true_or, if_true]
        exact ⟨rfl, mapErrorStatus_ne_200 "Invalid URL from image hosting", _, rfl⟩
      · simp only [hok2, Bool.not_true, h, Bool.not_false, Bool.or_true, if_true]
        exact ⟨rfl, mapErrorStatus_ne_200 "Invalid URL from image hosting", _, rfl⟩

/-- Witness for C3 at a concrete failing upload (upstream 500 from the
hosting service). -/
theorem c3_upload_failure_short_circuits_witness :
    truthyOpt (ProcessReq.mk (some "aGk=") none none).image = true ∧
    ((processHandler ⟨some "aGk=", none, none⟩ (.response 500 "oops") (.netError "x") 0 0 0 0 0 "TS").transformCalled = false ∧
     (processHandler ⟨some "aGk=", none, none⟩ (.response 500 "oops") (.netError "x") 0 0 0 0 0 "TS").status ≠ 200 ∧
     ∃ m, (processHandler ⟨some "aGk=", none, none⟩ (.response 500 "oops") (.netError "x") 0 0 0 0 0 "TS").body
       = .err m (some "TS")) :=
  ⟨by decide,
   c3_upload_failure_short_circuits ⟨some "aGk=", none, none⟩ (.response 500 "oops") (.netError "x")
     0 0 0 0 0 "TS" (by decide) (Or.inr ⟨500, "oops", rfl, Or.inl (by decide)⟩)⟩

/-- C1: when the transform call returns non-2xx, the client status follows
the upstream status: 400 to 400, 404 to 404, 429 to 429, and everything
else that is non-2xx (including every status at or above 500) to 500. -/
theorem c1_transform_status_mapping (req : ProcessReq) (ut : String) (us s : Nat)
    (ab : TransformResp) (t0 t1 t2 t3 t4 : Int) (nowISO : String)
    (himg : truthyOpt req.image = true)
    (hup : fetchOk us = true) (hu1 : truthyS ut = true)
    (hu2 : strStarts ut "https://" = true) (hbad : fetchOk s = false) :
    (processHandler req (.response us ut) (.response s ab) t0 t1 t2 t3 t4 nowISO).status
      = if s = 400 then 400 else if s = 404 then 404 else if s = 429 then 429 else 500 := by
  unfold processHandler
  rw [if_pos himg]
  simp only [hup, hu1, hu2, hbad, Bool.not_true, Bool.not_false, Bool.false_or,
    Bool.false_eq_true, if_false, if_true, catchOut]
  by_cases h4 : s = 400
  · subst h4
    decide
  · by_cases h404 : s = 404
    · subst h404
      decide
    · by_cases h429 : s = 429
      · subst h429
        decide
      · simp only [show (s == 400) = false from beq_eq_false_iff_ne.mpr h4,
          show (s == 404) = false from beq_eq_false_iff_ne.mpr h404,
          show (s == 429) = false from beq_eq_false_iff_ne.mpr h429,
          Bool.false_eq_true, if_false, if_neg h4, if_neg h404, if_neg h429]
        by_cases h500 : 500 ≤ s
        · rw [if_pos h500]
          decide
        · rw [if_neg h500]
          exact mapErrorStatus_apiError s

/-- Witness for C1 at the unmapped non-2xx upstream status 418. -/
theorem c1_transform_status_mapping_witness :
    fetchOk 418 = false ∧
    (processHandler ⟨some "aGk=", none, none⟩ (.response 200 "https://files.catbox.moe/x.png")
      (.response 418 ⟨none, none⟩) 0 0 0 0 0 "TS").status
      = if (418 : Nat) = 400 then 400 else if (418 : Nat) = 404 then 404
        else if (418 : Nat) = 429 then 429 else 500 :=
  ⟨by decide,
   c1_transform_status_mapping ⟨some "aGk=", none, none⟩ "https://files.catbox.moe/x.png"
     200 418 ⟨none, none⟩ 0 0 0 0 0 "TS" (by decide) (by decide) (by decide) (by decide) (by decide)⟩

/-- C2 counterexample: a parsed transform body whose result does not start
with an http scheme is answered with client status 400, not 500 — its
thrown message `Invalid result from API` matches the catch block's
`Invalid` substring rule. -/
theorem c2_invalid_result_counterexample :
    (processHandler ⟨some "aGk=", none, none⟩ (.response 200 "https://files.catbox.moe/x.png")
      (.response 200 ⟨some "application/json", some ⟨true, none, some "ftp://bad", none, none⟩⟩)
      0 0 0 0 0 "TS").status = 400 ∧
    ¬ (processHandler ⟨some "aGk=", none, none⟩ (.response 200 "https://files.catbox.moe/x.png")
      (.response 200 ⟨some "application/json", some ⟨true, none, some "ftp://bad", none, none⟩⟩)
      0 0 0 0 0 "TS").status = 500 := by
  decide

/-- C2 (amended): a non-JSON-shaped transform response (UpstreamBadResponse)
is answered with client status 500, but a parsed body whose result URL is
missing or does not start with an http scheme (UpstreamInvalidResult) is
answered with client status 400. -/
theorem c2_shape_and_result_statuses (req : ProcessReq) (ut : String) (us s : Nat)
    (ct : Option String) (oj : Option TransformJson) (data : TransformJson)
    (t0 t1 t2 t3 t4 : Int) (nowISO : String)
    (himg : truthyOpt req.image = true)
    (hup : fetchOk us = true) (hu1 : truthyS ut = true)
    (hu2 : strStarts ut "https://" = true) (hok : fetchOk s = true) :
    ((! truthyOpt ct || ! strIncludes (ct.getD "") "application/json") = true →
      (processHandler req (.response us ut) (.response s ⟨ct, oj⟩)
        t0 t1 t2 t3 t4 nowISO).status = 500) ∧
    (truthyOpt ct = true → strIncludes (ct.getD "") "application/json" = true →
      data.success = true →
      (! truthyOpt data.result || ! strStarts (data.result.getD "") "http") = true →
      (processHandler req (.response us ut) (.response s ⟨ct, some data⟩)
        t0 t1 t2 t3 t4 nowISO).status = 400) := by
  constructor
  · intro hbadct
    unfold processHandler
    rw [if_pos himg]
    simp only [hup, hu1, hu2, hok, Bool.not_true, Bool.not_false, Bool.false_or,
      Bool.false_eq_true, if_false, if_true, hbadct, catchOut]
    decide
  · intro hct hctj hsucc hres
    unfold processHandler
    rw [if_pos himg]
    simp only [hup, hu1, hu2, hok, hct, hctj, hsucc, hres, Bool.not_true, Bool.not_false,
      Bool.false_or, Bool.or_self, Bool.false_eq_true, if_false, if_true, catchOut]
    decide

/-- Witness for C2 (amended): a non-JSON content-type gives 500 and an
`ftp://` result gives 400. -/
theorem c2_shape_and_result_statuses_witness :
    ((! truthyOpt (none : Option String)
        || ! strIncludes ((none : Option String).getD "") "application/json") = true ∧
     (processHandler ⟨some "aGk=", none, none⟩ (.response 200 "https://files.catbox.moe/x.png")
       (.response 200 ⟨none, none⟩) 0 0 0 0 0 "TS").status = 500) ∧
    ((processHandler ⟨some "aGk=", none, none⟩ (.response 200 "https://files.catbox.moe/x.png")
       (.response 200 ⟨some "application/json", some ⟨true, none, some "ftp://bad", none, none⟩⟩)
       0 0 0 0 0 "TS").status = 400) :=
  ⟨⟨by decide,
    (c2_shape_and_result_statuses ⟨some "aGk=", none, none⟩ "https://files.catbox.moe/x.png"
      200 200 none none ⟨true, none, some "ftp://bad", none, none⟩ 0 0 0 0 0 "TS"
      (by decide) (by decide) (by decide) (by decide) (by decide)).1 (by decide)⟩,
   (c2_shape_and_result_statuses ⟨some "aGk=", none, none⟩ "https://files.catbox.moe/x.png"
      200 200 (some "application/json") (some ⟨true, none, some "ftp://bad", none, none⟩)
      ⟨true, none, some "ftp://bad", none, none⟩ 0 0 0 0 0 "TS"
      (by decide) (by decide) (by decide) (by decide) (by decide)).2
      (by decide) (by decide) (by decide) (by decide)⟩

/-- C6 counterexample: a realistic node-fetch network failure message
(`getaddrinfo ENOTFOUND`) contains none of the catch block's substrings,
so the DNS failure is answered with 500, not 503. -/
theorem c6_network_error_counterexample :
    (processHandler ⟨some "aGk=", none, none⟩
      (.netError "request to https://catbox.moe/user/api.php failed, reason: getaddrinfo ENOTFOUND catbox.moe")
      (.netError "x") 0 0 0 0 0 "TS").status = 500 ∧
    ¬ (processHandler ⟨some "aGk=", none, none⟩
      (.netError "request to https://catbox.moe/user/api.php failed, reason: getaddrinfo ENOTFOUND catbox.moe")
      (.netError "x") 0 0 0 0 0 "TS").status = 503 := by
  decide

/-- C6 (amended): a network-level failure of the upload or of the
transform call is answered with client status 503 exactly when the raised
error message contains the substring `reach` (as in `unreachable`) and
matches none of the earlier substring rules; in every other case — in
particular for node-fetch's `getaddrinfo ENOTFOUND` messages — the status
is not 503. -/
theorem c6_reach_message_503 (req : ProcessReq) (transform : FetchOutcome TransformResp)
    (t0 t1 t2 t3 t4 : Int) (nowISO : String) (msg : String) (us : Nat) (ut : String)
    (himg : truthyOpt req.image = true)
    (hup : fetchOk us = true) (hu1 : truthyS ut = true)
    (hu2 : strStarts ut "https://" = true) :
    ((processHandler req (.netError msg) transform t0 t1 t2 t3 t4 nowISO).status = 503 ↔
      (strIncludes msg "Invalid" = false ∧ strIncludes msg "unsupported" = false ∧
       strIncludes msg "not found" = false ∧ strIncludes msg "expired" = false ∧
       strIncludes msg "Too many" = false ∧ strIncludes msg "reach" = true)) ∧
    ((processHandler req (.response us ut) (.netError msg) t0 t1 t2 t3 t4 nowISO).status
        = 503 ↔
      (strIncludes msg "Invalid" = false ∧ strIncludes msg "unsupported" = false ∧
       strIncludes msg "not found" = false ∧ strIncludes msg "expired" = false ∧
       strIncludes msg "Too many" = false ∧ strIncludes msg "reach" = true)) := by
  have e1 : (processHandler req (.netError msg) transform t0 t1 t2 t3 t4 nowISO).status
      = mapErrorStatus msg := by
    unfold processHandler
    rw [if_pos himg]
    rfl
  have e2 : (processHandler req (.response us ut) (.netError msg)
        t0 t1 t2 t3 t4 nowISO).status = mapErrorStatus msg := by
    unfold processHandler
    rw [if_pos himg]
    simp only [hup, hu1, hu2, Bool.not_true, Bool.or_self, Bool.false_eq_true, if_false]
    rfl
  rw [e1, e2]
  exact ⟨mapErrorStatus_eq_503_iff msg, mapErrorStatus_eq_503_iff msg⟩

/-- Witness for C6 (amended): both directions of the characterization at
the concrete message `upstream unreachable`. -/
theorem c6_reach_message_503_witness :
    ((processHandler ⟨some "aGk=", none, none⟩ (.netError "upstream unreachable")
        (.netError "x") 0 0 0 0 0 "TS").status = 503 ↔
      (strIncludes "upstream unreachable" "Invalid" = false ∧
       strIncludes "upstream unreachable" "unsupported" = false ∧
       strIncludes "upstream unreachable" "not found" = false ∧
       strIncludes "upstream unreachable" "expired" = false ∧
       strIncludes "upstream unreachable" "Too many" = false ∧
       strIncludes "upstream unreachable" "reach" = true)) ∧
    ((processHandler ⟨some "aGk=", none, none⟩ (.response 200 "https://files.catbox.moe/x.png")
        (.netError "upstream unreachable") 0 0 0 0 0 "TS").status = 503 ↔
      (strIncludes "upstream unreachable" "Invalid" = false ∧
       strIncludes "upstream unreachable" "unsupported" = false ∧
       strIncludes "upstream unreachable" "not found" = false ∧
       strIncludes "upstream unreachable" "expired" = false ∧
       strIncludes "upstream unreachable" "Too many" = false ∧
       strIncludes "upstream unreachable" "reach" = true)) :=
  c6_reach_message_503 ⟨some "aGk=", none, none⟩ (.netError "x") 0 0 0 0 0 "TS"
    "upstream unreachable" 200 "https://files.catbox.moe/x.png"
    (by decide) (by decide) (by decide) (by decide)

/-- C7 counterexample: when the upstream body carries a truthy
`responseTime`, the timing object's processing component is that upstream
value verbatim, not the wall clock measured around the transform call
(here 5ms measured, `7.2s` reported). -/
theorem c7_responsetime_counterexample :
    (processHandler ⟨some "aGk=", none, none⟩ (.response 200 "https://files.catbox.moe/x.png")
      (.response 200 ⟨some "application/json",
        some ⟨true, none, some "https://cdn.example/out.png", none, some "7.2s"⟩⟩)
      0 3 0 5 20 "TS").body
      = .ok ⟨"https://cdn.example/out.png", "https://files.catbox.moe/x.png", "TS",
          "3ms", "7.2s", "20ms"⟩
    ∧ ("7.2s" : String) ≠ toString ((5 : Int) - 0) ++ "ms" := by
  decide

/-- C7 (amended): in a successful run, the total component is the wall
clock from the start of the handler to assembly, and the processing
component is the wall clock measured around the transform call only when
the upstream body has no truthy `responseTime`; a truthy `responseTime` is
forwarded verbatim instead. -/
theorem c7_timing_fields (req : ProcessReq) (ut : String) (us s : Nat)
    (ct : Option String) (data : TransformJson)
    (t0 t1 t2 t3 t4 : Int) (nowISO : String)
    (himg : truthyOpt req.image = true)
    (hup : fetchOk us = true) (hu1 : truthyS ut = true)
    (hu2 : strStarts ut "https://" = true) (hok : fetchOk s = true)
    (hct : truthyOpt ct = true) (hctj : strIncludes (ct.getD "") "application/json" = true)
    (hsucc : data.success = true)
    (hres : (! truthyOpt data.result || ! strStarts (data.result.getD "") "http") = false) :
    ∃ r, (processHandler req (.response us ut) (.response s ⟨ct, some data⟩)
        t0 t1 t2 t3 t4 nowISO).body = .ok r ∧
      r.timingTotal = toString (t4 - t0) ++ "ms" ∧
      r.timingUpload = toString (t1 - t0) ++ "ms" ∧
      ((data.responseTime = none ∨ data.responseTime = some "") →
        r.timingProcessing = toString (t3 - t2) ++ "ms") ∧
      (∀ rt, data.responseTime = some rt → rt ≠ "" → r.timingProcessing = rt) := by
  refine ⟨⟨data.result.getD "", jsTrim ut, jsOrElse data.timestamp nowISO,
      toString (t1 - t0) ++ "ms", jsOrElse data.responseTime (toString (t3 - t2) ++ "ms"),
      toString (t4 - t0) ++ "ms"⟩, ?_, rfl, rfl, ?_, ?_⟩
  · unfold processHandler
    rw [if_pos himg]
    simp only [hup, hu1, hu2, hok, hct, hctj, hsucc, hres, Bool.not_true, Bool.or_self,
      Bool.false_eq_true, if_false]
  · intro h
    rcases h with h | h <;> rw [h] <;> simp [jsOrElse]
  · intro rt hrt hne
    rw [hrt]
    simp [jsOrElse, hne]

/-- Witness for C7 (amended) at a concrete successful run carrying a truthy
upstream `responseTime`. -/
theorem c7_timing_fields_witness :
    ∃ r, (processHandler ⟨some "aGk=", none, none⟩
        (.response 200 "https://files.catbox.moe/x.png")
        (.response 200 ⟨some "application/json",
          some ⟨true, none, some "https://cdn.example/out.png", none, some "7.2s"⟩⟩)
        0 3 0 5 20 "TS").body = .ok r ∧
      r.timingTotal = toString ((20 : Int) - 0) ++ "ms" ∧
      r.timingUpload = toString ((3 : Int) - 0) ++ "ms" ∧
      ((some "7.2s" = (none : Option String) ∨ some "7.2s" = some "") →
        r.timingProcessing = toString ((5 : Int) - 0) ++ "ms") ∧
      (∀ rt, some "7.2s" = some rt → rt ≠ "" → r.timingProcessing = rt) :=
  c7_timing_fields ⟨some "aGk=", none, none⟩ "https://files.catbox.moe/x.png" 200 200
    (some "application/json") ⟨true, none, some "https://cdn.example/out.png", none, some "7.2s"⟩
    0 3 0 5 20 "TS" (by decide) (by decide) (by decide) (by decide) (by decide)
    (by decide) (by decide) (by decide) (by decide)

/-- C8: on a successful relay fetch with no caller-supplied filename, the
emitted Content-Length is the number of bytes fetched, the filename is
synthesized as `result_<timestamp>.<extension>`, and the extension follows
the content-type mapping (jpeg/jpg to jpg, then webp, then gif, else png). -/
theorem c8_download_headers (u : String) (s : Nat) (ct : String) (bytes : List Nat)
    (now : Nat) (hu : u ≠ "") (hs : fetchOk s = true) (hct : ct ≠ "") :
    downloadHandler (some u) none (.response s ⟨some ct, bytes⟩) now
      = ⟨200, .file ct
          ("attachment; filename=\"" ++ ("result_" ++ natToDec now ++ "." ++ extFor ct) ++ "\"")
          bytes.length "no-cache" bytes, true⟩ ∧
    ((strIncludes ct "jpeg" = true ∨ strIncludes ct "jpg" = true) → extFor ct = "jpg") ∧
    (strIncludes ct "jpeg" = false → strIncludes ct "jpg" = false →
      strIncludes ct "webp" = true → extFor ct = "webp") ∧
    (strIncludes ct "jpeg" = false → strIncludes ct "jpg" = false →
      strIncludes ct "webp" = false → strIncludes ct "gif" = true → extFor ct = "gif") ∧
    (strIncludes ct "jpeg" = false → strIncludes ct "jpg" = false →
      strIncludes ct "webp" = false → strIncludes ct "gif" = false → extFor ct = "png") := by
  refine ⟨?_, ?_, ?_, ?_, ?_⟩
  · have h1 : truthyOpt (some u) = true := by
      simp [truthyOpt, hu]
    unfold downloadHandler
    rw [if_pos h1]
    simp only [hs, Bool.not_true, Bool.false_eq_true, if_false]
    simp [jsOrElse, hct]
  · intro h
    unfold extFor
    rcases h with h | h <;> simp [h]
  · intro h1 h2 h3
    unfold extFor
    simp [h1, h2, h3]
  · intro h1 h2 h3 h4
    unfold extFor
    simp [h1, h2, h3, h4]
  · intro h1 h2 h3 h4
    unfold extFor
    simp [h1, h2, h3, h4]

/-- Witness for C8 at a concrete `image/jpeg` response of three bytes. -/
theorem c8_download_headers_witness :
    ("https://cdn.example/a.bin" : String) ≠ "" ∧
    (downloadHandler (some "https://cdn.example/a.bin") none
        (.response 200 ⟨some "image/jpeg", [1, 2, 3]⟩) 77
      = ⟨200, .file "image/jpeg"
          ("attachment; filename=\"" ++ ("result_" ++ natToDec 77 ++ "." ++ extFor "image/jpeg") ++ "\"")
          [1, 2, 3].length "no-cache" [1, 2, 3], true⟩ ∧
     ((strIncludes "image/jpeg" "jpeg" = true ∨ strIncludes "image/jpeg" "jpg" = true) →
       extFor "image/jpeg" = "jpg")) :=
  ⟨by decide,
   (c8_download_headers "https://cdn.example/a.bin" 200 "image/jpeg" [1, 2, 3] 77
      (by decide) (by decide) (by decide)).1,
   (c8_download_headers "https://cdn.example/a.bin" 200 "image/jpeg" [1, 2, 3] 77
      (by decide) (by decide) (by decide)).2.1⟩

/-- C4: every `/api/process` run that answers 200 carries a success body
whose result URL and uploadedUrl both start with `http`; malformed values
never reach the caller with a 200. -/
theorem c4_success_urls_start_http (req : ProcessReq) (upload : FetchOutcome String)
    (transform : FetchOutcome TransformResp) (t0 t1 t2 t3 t4 : Int) (nowISO : String)
    (h : (processHandler req upload transform t0 t1 t2 t3 t4 nowISO).status = 200) :
    ∃ r, (processHandler req upload transform t0 t1 t2 t3 t4 nowISO).body = .ok r ∧
      strStarts r.result "http" = true ∧ strStarts r.uploadedUrl "http" = true := by
  by_cases himg : truthyOpt req.image = true
  case neg =>
    have himg' : truthyOpt req.image = false := by
      revert himg
      cases truthyOpt req.image <;> simp
    rw [show (processHandler req upload transform t0 t1 t2 t3 t4 nowISO).status
        = 400 from by unfold processHandler; rw [if_neg (by simp [himg'])]] at h
    cases h
  case pos =>
    rcases upload with m | ⟨us, ut⟩
    · rw [show (processHandler req (.netError m) transform t0 t1 t2 t3 t4 nowISO).status
          = mapErrorStatus m from by
        unfold processHandler
        rw [if_pos himg]
        rfl] at h
      exact absurd h (mapErrorStatus_ne_200 m)
    · by_cases hok : fetchOk us = true
      case neg =>
        have hok' : fetchOk us = false := by
          revert hok
          cases fetchOk us <;> simp
        rw [show (processHandler req (.response us ut) transform t0 t1 t2 t3 t4 nowISO).status
            = mapErrorStatus "Failed to upload image to hosting" from by
          unfold processHandler
          rw [if_pos himg]
          simp only [hok', Bool.not_false, if_true, catchOut]] at h
        exact absurd h (mapErrorStatus_ne_200 _)
      case pos =>
        by_cases hurl : (! truthyS ut || ! strStarts ut "https://") = true
        case pos =>
          rw [show (processHandler req (.response us ut) transform t0 t1 t2 t3 t4 nowISO).status
              = mapErrorStatus "Invalid URL from image hosting" from by
            unfold processHandler
            rw [if_pos himg]
            simp only [hok, Bool.not_true, Bool.false_eq_true, if_false, hurl, if_true,
              catchOut]] at h
          exact absurd h (mapErrorStatus_ne_200 _)
        case neg =>
          have hurl' : (! truthyS ut || ! strStarts ut "https://") = false := by
            revert hurl
            cases (! truthyS ut || ! strStarts ut "https://") <;> simp
          have hstart : strStarts ut "https://" = true := by
            revert hurl'
            cases strStarts ut "https://" <;> simp
          rcases transform with m2 | ⟨s2, ab⟩
          · rw [show (processHandler req (.response us ut) (.netError m2)
                  t0 t1 t2 t3 t4 nowISO).status = mapErrorStatus m2 from by
              unfold processHandler
              rw [if_pos himg]
              simp only [hok, Bool.not_true, Bool.false_eq_true, if_false, hurl',
                catchOut]] at h
            exact absurd h (mapErrorStatus_ne_200 m2)
          · by_cases hsok : fetchOk s2 = true
            case neg =>
              have hsok' : fetchOk s2 = false := by
                revert hsok
                cases fetchOk s2 <;> simp
              rw [show (processHandler req (.response us ut) (.response s2 ab)
                    t0 t1 t2 t3 t4 nowISO).status
                  = mapErrorStatus (if s2 == 400 then "Invalid image format or unsupported image type"
                    else if s2 == 404 then "Image not found. The uploaded URL may have expired"
                    else if s2 == 429 then "Too many requests. Please wait a moment and try again"
                    else if 500 ≤ s2 then "API server error. Please try again in a few minutes"
                    else "API error (status " ++ natToDec s2 ++ ")") from by
                unfold processHandler
                rw [if_pos himg]
                simp only [hok, Bool.not_true, Bool.false_eq_true, if_false, hurl', hsok',
                  Bool.not_false, if_true, catchOut]] at h
              exact absurd h (mapErrorStatus_ne_200 _)
            case pos =>
              by_cases hct : (! truthyOpt ab.contentType
                  || ! strIncludes (ab.contentType.getD "") "application/json") = true
              case pos =>
                rw [show (processHandler req (.response us ut) (.response s2 ab)
                      t0 t1 t2 t3 t4 nowISO).status
                    = mapErrorStatus "API returned invalid response format" from by
                  unfold processHandler
                  rw [if_pos himg]
                  simp only [hok, hsok, Bool.not_true, Bool.false_eq_true, if_false, hurl',
                    hct, if_true, catchOut]] at h
                exact absurd h (mapErrorStatus_ne_200 _)
              case neg =>
                have hct' : (! truthyOpt ab.contentType
                    || ! strIncludes (ab.contentType.getD "") "application/json") = false := by
                  revert hct
                  cases (! truthyOpt ab.contentType
                    || ! strIncludes (ab.contentType.getD "") "application/json") <;> simp
                rcases habj : ab.json with _ | data
                · rw [show (processHandler req (.response us ut) (.response s2 ab)
                        t0 t1 t2 t3 t4 nowISO).status
                      = mapErrorStatus "invalid json response body" from by
                    unfold processHandler
                    rw [if_pos himg]
                    simp only [hok, hsok, Bool.not_true, Bool.false_eq_true, if_false,
                      hurl', hct', habj, catchOut]] at h
                  exact absurd h (mapErrorStatus_ne_200 _)
                · by_cases hsucc : data.success = true
                  case neg =>
                    have hsucc' : data.success = false := by
                      revert hsucc
                      cases data.success <;> simp
                    rw [show (processHandler req (.response us ut) (.response s2 ab)
                          t0 t1 t2 t3 t4 nowISO).status
                        = mapErrorStatus (jsOrElse data.message "API processing failed") from by
                      unfold processHandler
                      rw [if_pos himg]
                      simp only [hok, hsok, Bool.not_true, Bool.false_eq_true, if_false,
                        hurl', hct', habj, hsucc', Bool.not_false, if_true, catchOut]] at h
                    exact absurd h (mapErrorStatus_ne_200 _)
                  case pos =>
                    by_cases hres : (! truthyOpt data.result
                        || ! strStarts (data.result.getD "") "http") = true
                    case pos =>
                      rw [show (processHandler req (.response us ut) (.response s2 ab)
                            t0 t1 t2 t3 t4 nowISO).status
                          = mapErrorStatus "Invalid result from API" from by
                        unfold processHandler
                        rw [if_pos himg]
                        simp only [hok, hsok, Bool.not_true, Bool.false_eq_true, if_false,
                          hurl', hct', habj, hsucc, hres, if_true, catchOut]] at h
                      exact absurd h (mapErrorStatus_ne_200 _)
                    case neg =>
                      have hres' : (! truthyOpt data.result
                          || ! strStarts (data.result.getD "") "http") = false := by
                        revert hres
                        cases (! truthyOpt data.result
                          || ! strStarts (data.result.getD "") "http") <;> simp
                      have hresS : strStarts (data.result.getD "") "http" = true := by
                        revert hres'
                        cases strStarts (data.result.getD "") "http" <;> simp
                      refine ⟨⟨data.result.getD "", jsTrim ut, jsOrElse data.timestamp nowISO,
                          toString (t1 - t0) ++ "ms",
                          jsOrElse data.responseTime (toString (t3 - t2) ++ "ms"),
                          toString (t4 - t0) ++ "ms"⟩, ?_, hresS,
                          strStarts_jsTrim_http ut hstart⟩
                      unfold processHandler
                      rw [if_pos himg]
                      simp only [hok, hsok, Bool.not_true, Bool.false_eq_true, if_false,
                        hurl', hct', habj, hsucc, hres']

/-- Witness for C4 at a concrete fully successful run. -/
theorem c4_success_urls_start_http_witness :
    (processHandler ⟨some "aGk=", none, none⟩ (.response 200 "https://files.catbox.moe/x.png")
      (.response 200 ⟨some "application/json",
        some ⟨true, none, some "https://cdn.example/out.png", none, none⟩⟩)
      0 0 0 0 0 "TS").status = 200 ∧
    (∃ r, (processHandler ⟨some "aGk=", none, none⟩ (.response 200 "https://files.catbox.moe/x.png")
        (.response 200 ⟨some "application/json",
          some ⟨true, none, some "https://cdn.example/out.png", none, none⟩⟩)
        0 0 0 0 0 "TS").body = .ok r ∧
      strStarts r.result "http" = true ∧ strStarts r.uploadedUrl "http" = true) :=
  ⟨by decide,
   c4_success_urls_start_http ⟨some "aGk=", none, none⟩ (.response 200 "https://files.catbox.moe/x.png")
     (.response 200 ⟨some "application/json",
       some ⟨true, none, some "https://cdn.example/out.png", none, none⟩⟩)
     0 0 0 0 0 "TS" (by decide)⟩

end RemoveCl
